import Mathlib

/-!
Verification of the rtmpy RPC call-correlation layer (src/rtmpy/rpc.py) and of
the spec-modelled decoder/handshake components, as a shallow embedding in Lean.

The registry (_activeCalls, a Python dict keyed by integer call ids) is
embedded as an association list over Nat keys; dict assignment, membership,
get and pop are embedded below as insertKey, lookupKey, eraseKey.
-/

namespace Rtmpy

/-- Embedding of a Python dict with int keys: an association list.
Lookup returns the value of the first pair with the given key. -/
def lookupKey {α : Type} (r : List (Nat × α)) (k : Nat) : Option α :=
  (r.find? (fun p => p.1 == k)).map Prod.snd

/-- Embedding of dict.pop(k)'s removal effect: drop every pair with key k. -/
def eraseKey {α : Type} (k : Nat) (r : List (Nat × α)) : List (Nat × α) :=
  r.filter (fun p => p.1 != k)

/-- Embedding of dict assignment d[k] = v: the new binding shadows and
replaces any previous binding of k. -/
def insertKey {α : Type} (k : Nat) (v : α) (r : List (Nat × α)) : List (Nat × α) :=
  (k, v) :: eraseKey k r

theorem lookupKey_eq_none {α : Type} {r : List (Nat × α)} {k : Nat} :
    lookupKey r k = none ↔ ∀ p ∈ r, p.1 ≠ k := by
  unfold lookupKey
  rw [Option.map_eq_none', List.find?_eq_none]
  constructor
  · intro h p hp
    have := h p hp
    simpa using this
  · intro h p hp
    simpa using h p hp

theorem eraseKey_of_lookupKey_none {α : Type} {r : List (Nat × α)} {k : Nat}
    (h : lookupKey r k = none) : eraseKey k r = r := by
  rw [lookupKey_eq_none] at h
  unfold eraseKey
  apply List.filter_eq_self.mpr
  intro p hp
  simpa using h p hp

theorem lookupKey_eraseKey_self {α : Type} (r : List (Nat × α)) (k : Nat) :
    lookupKey (eraseKey k r) k = none := by
  rw [lookupKey_eq_none]
  intro p hp
  have := List.mem_filter.mp hp
  simpa using this.2

theorem lookupKey_insertKey_self {α : Type} (r : List (Nat × α)) (k : Nat) (v : α) :
    lookupKey (insertKey k v r) k = some v := by
  simp [lookupKey, insertKey, List.find?]

theorem mem_eraseKey {α : Type} {r : List (Nat × α)} {k : Nat} {p : Nat × α}
    (h : p ∈ eraseKey k r) : p ∈ r :=
  (List.mem_filter.mp h).1

theorem mem_insertKey {α : Type} {r : List (Nat × α)} {k : Nat} {v : α} {p : Nat × α}
    (h : p ∈ insertKey k v r) : p = (k, v) ∨ p ∈ r := by
  rcases List.mem_cons.mp h with h1 | h1
  · exact Or.inl h1
  · exact Or.inr (mem_eraseKey h1)

/-! Constants from src/rtmpy/rpc.py lines 28-34. -/

/-- The id for an RPC call that does not require or expect a response
(rpc.py line 29). -/
def NO_RESULT : Nat := 0

/-- The name of the response for a successful RPC call (rpc.py line 32). -/
def RESPONSE_RESULT : String := "_result"

/-- The name of the response for an RPC call that did not succeed
(rpc.py line 34). -/
def RESPONSE_ERROR : String := "_error"

/-- State of rpc.BaseCallHandler (rpc.py lines 45-62): the last initiated
call id and the dict of callId to context for calls that are initiated but
not yet finished. -/
structure BaseCallHandler (α : Type) where
  lastCallId : Nat
  activeCalls : List (Nat × α)
  deriving Repr, DecidableEq

/-- BaseCallHandler.__init__ (rpc.py lines 60-62). -/
def initHandler {α : Type} : BaseCallHandler α :=
  { lastCallId := 0, activeCalls := [] }

/-- BaseCallHandler.isCallActive (rpc.py lines 65-70):
callId in self._activeCalls. -/
def isCallActive {α : Type} (s : BaseCallHandler α) (callId : Nat) : Bool :=
  (lookupKey s.activeCalls callId).isSome

/-- BaseCallHandler.getNextCallId (rpc.py lines 73-79). -/
def getNextCallId {α : Type} (s : BaseCallHandler α) : Nat :=
  s.lastCallId + 1

/-- BaseCallHandler.getCallContext (rpc.py lines 82-93):
self._activeCalls.get(callId, None). -/
def getCallContext {α : Type} (s : BaseCallHandler α) (callId : Nat) : Option α :=
  lookupKey s.activeCalls callId

/-- BaseCallHandler.initiateCall (rpc.py lines 96-110): assigns the next
call id, stores the context under it, returns the id alongside the new
state. -/
def initiateCall {α : Type} (s : BaseCallHandler α) (ctx : α) :
    Nat × BaseCallHandler α :=
  let callId := getNextCallId s
  (callId, { lastCallId := callId, activeCalls := insertKey callId ctx s.activeCalls })

/-- BaseCallHandler.finishCall (rpc.py lines 113-123):
self._activeCalls.pop(callId, None), returning the popped context (or none)
alongside the new state. -/
def finishCall {α : Type} (s : BaseCallHandler α) (callId : Nat) :
    Option α × BaseCallHandler α :=
  (lookupKey s.activeCalls callId,
   { s with activeCalls := eraseKey callId s.activeCalls })

/-- BaseCallHandler.discardCall (rpc.py lines 126-139): textually the same
body as finishCall, self._activeCalls.pop(callId, None). -/
def discardCall {α : Type} (s : BaseCallHandler α) (callId : Nat) :
    Option α × BaseCallHandler α :=
  (lookupKey s.activeCalls callId,
   { s with activeCalls := eraseKey callId s.activeCalls })

/-- The context tuple stored by AbstractCallInitiator.callRemoteWithResult
(rpc.py line 199) and unpacked by handleRemoteResponse (rpc.py line 236):
(d, name, args, command). The deferred d is an opaque handle of type δ
supplied by the environment; argument, result and command values have
type V. -/
structure CallContext (δ V : Type) where
  deferred : δ
  name : String
  args : List V
  command : Option V
  deriving Repr, DecidableEq

/-- message.Invoke(name, callId, command, args) as constructed at rpc.py
lines 178 and 200. -/
structure Invoke (V : Type) where
  name : String
  callId : Nat
  command : Option V
  args : List V
  deriving Repr, DecidableEq

/-- rpc.RemoteCallFailed (rpc.py lines 38-41): the failure wrapper put
around the result when an error response arrives (rpc.py line 246). -/
structure RemoteCallFailed (V : Type) where
  result : V
  deriving Repr, DecidableEq

/-- Observable effects of handleRemoteResponse. Each constructor stands for
one branch of side effects in rpc.py:
logUnsolicitedResponse for the two log.msg calls at lines 228-230,
logUnknownCallId for the log.msg at line 232,
logCommandReceived for the two log.msg calls at lines 239-240,
deferredCallback for d.callback(result) at line 244,
deferredErrback for d.errback(RemoteCallFailed(result)) at line 246,
logUnknownResponseType for the three log.msg calls at lines 248-251. -/
inductive RpcEffect (δ V : Type) where
  | logUnsolicitedResponse (name : String) (result : V)
  | logUnknownCallId (callId : Nat) (name : String) (result : V)
  | logCommandReceived
  | deferredCallback (deferred : δ) (result : V)
  | deferredErrback (deferred : δ) (wrapped : RemoteCallFailed V)
  | logUnknownResponseType (name : String) (result : V)
  deriving Repr, DecidableEq

/-- AbstractCallInitiator.callRemote (rpc.py lines 161-180): builds one
Invoke tagged with NO_RESULT, hands it to sendMessage, touches no handler
state, and returns None (the returned Option δ is the Python return value,
which is never a deferred here). The middle component is the list of
messages passed to sendMessage during the call. -/
def callRemote (δ : Type) {α V : Type} (s : BaseCallHandler α) (name : String)
    (args : List V) (command : Option V) :
    BaseCallHandler α × List (Invoke V) × Option δ :=
  (s, [{ name := name, callId := NO_RESULT, command := command, args := args }], none)

/-- AbstractCallInitiator.callRemoteWithResult (rpc.py lines 183-209).
The environment supplies the fresh deferred d and the behaviour of the
abstract sendMessage; a send that raises is an Except.error, which the
method re-raises after discarding the freshly initiated call. -/
def callRemoteWithResult {δ V ε : Type} (send : Invoke V → Except ε Unit) (d : δ)
    (s : BaseCallHandler (CallContext δ V)) (name : String) (args : List V)
    (command : Option V) :
    BaseCallHandler (CallContext δ V) × Except ε δ :=
  let r := initiateCall s { deferred := d, name := name, args := args, command := command }
  let m : Invoke V := { name := name, callId := r.1, command := command, args := args }
  match send m with
  | Except.ok _ => (r.2, Except.ok d)
  | Except.error e => ((discardCall r.2 r.1).2, Except.error e)

/-- AbstractCallInitiator.handleRemoteResponse (rpc.py lines 212-251),
returning the new handler state and the list of observable effects. -/
def handleRemoteResponse {δ V : Type} (s : BaseCallHandler (CallContext δ V))
    (name : String) (callId : Nat) (result : V) (command : Option V) :
    BaseCallHandler (CallContext δ V) × List (RpcEffect δ V) :=
  let r := finishCall s callId
  match r.1 with
  | none =>
    if callId = NO_RESULT then
      (r.2, [RpcEffect.logUnsolicitedResponse name result])
    else
      (r.2, [RpcEffect.logUnknownCallId callId name result])
  | some ctx =>
    let pre : List (RpcEffect δ V) :=
      if command.isSome then [RpcEffect.logCommandReceived] else []
    if name = RESPONSE_RESULT then
      (r.2, pre ++ [RpcEffect.deferredCallback ctx.deferred result])
    else if name = RESPONSE_ERROR then
      (r.2, pre ++ [RpcEffect.deferredErrback ctx.deferred { result := result }])
    else
      (r.2, pre ++ [RpcEffect.logUnknownResponseType name result])

/-! Operation sequences on a BaseCallHandler, for the monotonicity and
reachability claims. -/

/-- One registry-mutating operation of BaseCallHandler. -/
inductive Op (α : Type) where
  | initiate (ctx : α)
  | finish (callId : Nat)
  | discard (callId : Nat)
  deriving Repr

/-- Apply one operation, keeping only the resulting state. -/
def applyOp {α : Type} (s : BaseCallHandler α) : Op α → BaseCallHandler α
  | Op.initiate ctx => (initiateCall s ctx).2
  | Op.finish callId => (finishCall s callId).2
  | Op.discard callId => (discardCall s callId).2

/-- Run a sequence of operations from a state. -/
def runOps {α : Type} (s : BaseCallHandler α) : List (Op α) → BaseCallHandler α
  | [] => s
  | op :: rest => runOps (applyOp s op) rest

/-- The call ids returned by the initiateCall operations of a sequence, in
order. -/
def callIdTrace {α : Type} (s : BaseCallHandler α) : List (Op α) → List Nat
  | [] => []
  | op :: rest =>
    match op with
    | Op.initiate ctx => (initiateCall s ctx).1 :: callIdTrace (applyOp s op) rest
    | _ => callIdTrace (applyOp s op) rest

theorem lastCallId_le_applyOp {α : Type} (s : BaseCallHandler α) (op : Op α) :
    s.lastCallId ≤ (applyOp s op).lastCallId := by
  cases op <;> simp [applyOp, initiateCall, finishCall, discardCall, getNextCallId]

theorem lastCallId_lt_of_mem_callIdTrace {α : Type} :
    ∀ (ops : List (Op α)) (s : BaseCallHandler α) (x : Nat),
      x ∈ callIdTrace s ops → s.lastCallId < x := by
  intro ops
  induction ops with
  | nil => intro s x hx; simp [callIdTrace] at hx
  | cons op rest ih =>
    intro s x hx
    cases op with
    | initiate ctx =>
      simp only [callIdTrace] at hx
      rcases List.mem_cons.mp hx with h1 | h1
      · subst h1
        simp [initiateCall, getNextCallId]
      · have := ih (applyOp s (Op.initiate ctx)) x h1
        have h2 := lastCallId_le_applyOp s (Op.initiate ctx)
        omega
    | finish callId =>
      simp only [callIdTrace] at hx
      have := ih (applyOp s (Op.finish callId)) x hx
      have h2 := lastCallId_le_applyOp s (Op.finish callId)
      omega
    | discard callId =>
      simp only [callIdTrace] at hx
      have := ih (applyOp s (Op.discard callId)) x hx
      have h2 := lastCallId_le_applyOp s (Op.discard callId)
      omega

theorem callIdTrace_pairwise {α : Type} :
    ∀ (ops : List (Op α)) (s : BaseCallHandler α),
      List.Pairwise (fun a b => a < b) (callIdTrace s ops) := by
  intro ops
  induction ops with
  | nil => intro s; simp [callIdTrace]
  | cons op rest ih =>
    intro s
    cases op with
    | initiate ctx =>
      simp only [callIdTrace]
      refine List.pairwise_cons.mpr ⟨?_, ih (applyOp s (Op.initiate ctx))⟩
      intro x hx
      have h1 := lastCallId_lt_of_mem_callIdTrace rest (applyOp s (Op.initiate ctx)) x hx
      have h2 : (applyOp s (Op.initiate ctx)).lastCallId = (initiateCall s ctx).1 := by
        simp [applyOp, initiateCall]
      omega
    | finish callId => simpa [callIdTrace] using ih (applyOp s (Op.finish callId))
    | discard callId => simpa [callIdTrace] using ih (applyOp s (Op.discard callId))

theorem activeCalls_keys_pos_applyOp {α : Type} (s : BaseCallHandler α) (op : Op α)
    (h : ∀ p ∈ s.activeCalls, 0 < p.1) :
    ∀ p ∈ (applyOp s op).activeCalls, 0 < p.1 := by
  cases op with
  | initiate ctx =>
    intro p hp
    simp only [applyOp, initiateCall, getNextCallId] at hp
    rcases mem_insertKey hp with h1 | h1
    · subst h1; omega
    · exact h p h1
  | finish callId =>
    intro p hp
    simp only [applyOp, finishCall] at hp
    exact h p (mem_eraseKey hp)
  | discard callId =>
    intro p hp
    simp only [applyOp, discardCall] at hp
    exact h p (mem_eraseKey hp)

theorem activeCalls_keys_pos_runOps {α : Type} :
    ∀ (ops : List (Op α)) (s : BaseCallHandler α),
      (∀ p ∈ s.activeCalls, 0 < p.1) →
      ∀ p ∈ (runOps s ops).activeCalls, 0 < p.1 := by
  intro ops
  induction ops with
  | nil => intro s h; simpa [runOps] using h
  | cons op rest ih =>
    intro s h
    simp only [runOps]
    exact ih (applyOp s op) (activeCalls_keys_pos_applyOp s op h)

theorem lookupKey_runOps_zero {α : Type} (ops : List (Op α)) :
    lookupKey (runOps (initHandler : BaseCallHandler α) ops).activeCalls 0 = none := by
  rw [lookupKey_eq_none]
  intro p hp
  have h0 : ∀ p ∈ (initHandler : BaseCallHandler α).activeCalls, 0 < p.1 := by
    simp [initHandler]
  have := activeCalls_keys_pos_runOps ops initHandler h0 p hp
  omega

/-- C1: call ids returned by BaseCallHandler.initiateCall are strictly
increasing. For every sequence of initiateCall, finishCall and discardCall
operations on one handler, the list of ids returned by the initiateCall
steps is strictly increasing (pairwise less-than) and contains no
duplicate, and each individual initiateCall returns lastCallId + 1. -/
theorem initiateCall_ids_strictly_increasing (α : Type) (ops : List (Op α)) :
    List.Pairwise (fun a b => a < b)
      (callIdTrace (initHandler : BaseCallHandler α) ops) ∧
    (callIdTrace (initHandler : BaseCallHandler α) ops).Nodup ∧
    ∀ (s : BaseCallHandler α) (ctx : α), (initiateCall s ctx).1 = s.lastCallId + 1 := by
  refine ⟨callIdTrace_pairwise ops initHandler, ?_, ?_⟩
  · exact (callIdTrace_pairwise ops initHandler).imp (fun h => Nat.ne_of_lt h)
  · intro s ctx
    simp [initiateCall, getNextCallId]

/-- C2: handleRemoteResponse with a callId that is not an active call does
not raise (the embedding returns normally), leaves the handler state - the
active-call mapping and lastCallId - unchanged, and merely logs: a callId
of 0 is logged as an unsolicited notification, any other unknown id as an
unmatched response. -/
theorem handleRemoteResponse_unknown_callId {δ V : Type}
    (s : BaseCallHandler (CallContext δ V)) (name : String) (callId : Nat)
    (result : V) (command : Option V)
    (h : isCallActive s callId = false) :
    handleRemoteResponse s name callId result command =
      (s, if callId = 0 then [RpcEffect.logUnsolicitedResponse name result]
          else [RpcEffect.logUnknownCallId callId name result]) := by
  have hnone : lookupKey s.activeCalls callId = none := by
    cases hl : lookupKey s.activeCalls callId with
    | none => rfl
    | some v => simp [isCallActive, hl] at h
  have herase : eraseKey callId s.activeCalls = s.activeCalls :=
    eraseKey_of_lookupKey_none hnone
  simp only [handleRemoteResponse, finishCall, hnone, herase, NO_RESULT]
  split <;> rfl

/-- C2 witness: on the fresh handler, callId 5 is not active; the response
is logged as an unknown callId and the state is unchanged. -/
theorem handleRemoteResponse_unknown_callId_witness :
    isCallActive (initHandler : BaseCallHandler (CallContext Nat Nat)) 5 = false ∧
    handleRemoteResponse (initHandler : BaseCallHandler (CallContext Nat Nat))
        "_result" 5 7 none =
      (initHandler, [RpcEffect.logUnknownCallId 5 "_result" 7]) := by
  refine ⟨rfl, ?_⟩
  simpa using handleRemoteResponse_unknown_callId
    (initHandler : BaseCallHandler (CallContext Nat Nat)) "_result" 5 7 none rfl

/-- C3: when handleRemoteResponse finds an active call, it removes that
call from the registry; a name equal to RESPONSE_RESULT fires the stored
continuation's success path with the result, RESPONSE_ERROR fires the
failure path with the result wrapped in RemoteCallFailed, and any other
name only logs, firing neither path; in every case the call is no longer
active afterwards. The optional command only adds a log entry. -/
theorem handleRemoteResponse_active_call {δ V : Type}
    (s : BaseCallHandler (CallContext δ V)) (name : String) (callId : Nat)
    (result : V) (command : Option V) (ctx : CallContext δ V)
    (h : getCallContext s callId = some ctx) :
    handleRemoteResponse s name callId result command =
      ({ s with activeCalls := eraseKey callId s.activeCalls },
       (if command.isSome then [RpcEffect.logCommandReceived] else []) ++
       (if name = RESPONSE_RESULT then [RpcEffect.deferredCallback ctx.deferred result]
        else if name = RESPONSE_ERROR then
          [RpcEffect.deferredErrback ctx.deferred { result := result }]
        else [RpcEffect.logUnknownResponseType name result])) ∧
    isCallActive (handleRemoteResponse s name callId result command).1 callId = false := by
  have hsome : lookupKey s.activeCalls callId = some ctx := h
  have hmain : handleRemoteResponse s name callId result command =
      ({ s with activeCalls := eraseKey callId s.activeCalls },
       (if command.isSome then [RpcEffect.logCommandReceived] else []) ++
       (if name = RESPONSE_RESULT then [RpcEffect.deferredCallback ctx.deferred result]
        else if name = RESPONSE_ERROR then
          [RpcEffect.deferredErrback ctx.deferred { result := result }]
        else [RpcEffect.logUnknownResponseType name result])) := by
    simp only [handleRemoteResponse, finishCall, hsome]
    by_cases h1 : name = RESPONSE_RESULT
    · simp [h1]
    · by_cases h2 : name = RESPONSE_ERROR
      · simp [h1, h2, RESPONSE_RESULT, RESPONSE_ERROR]
      · simp [h1, h2]
  refine ⟨hmain, ?_⟩
  rw [hmain]
  simp [isCallActive, lookupKey_eraseKey_self]

/-- C3 witness: a handler with one active call (id 1, deferred handle 9);
a RESPONSE_RESULT response removes the call and fires the success path. -/
theorem handleRemoteResponse_active_call_witness :
    getCallContext
      ({ lastCallId := 1,
         activeCalls := [(1, { deferred := 9, name := "m", args := [1, 2], command := none })] } :
        BaseCallHandler (CallContext Nat Nat)) 1 =
      some { deferred := 9, name := "m", args := [1, 2], command := none } ∧
    handleRemoteResponse
      ({ lastCallId := 1,
         activeCalls := [(1, { deferred := 9, name := "m", args := [1, 2], command := none })] } :
        BaseCallHandler (CallContext Nat Nat)) "_result" 1 5 none =
      ({ lastCallId := 1, activeCalls := [] }, [RpcEffect.deferredCallback 9 5]) := by
  refine ⟨rfl, ?_⟩
  have := (handleRemoteResponse_active_call
    ({ lastCallId := 1,
       activeCalls := [(1, { deferred := 9, name := "m", args := [1, 2], command := none })] } :
      BaseCallHandler (CallContext Nat Nat)) "_result" 1 5 none
    { deferred := 9, name := "m", args := [1, 2], command := none } rfl).1
  simpa [RESPONSE_RESULT, eraseKey] using this

/-- C4: callRemoteWithResult registers a call under the newly assigned id
(lastCallId + 1) and passes a single invoke message tagged with that id to
sendMessage. If sending succeeds the registered context stays in the
registry and the deferred is returned; if sending raises, the freshly
registered call is discarded before the error propagates, so no registry
entry for that id remains. -/
theorem callRemoteWithResult_spec {δ V ε : Type}
    (send : Invoke V → Except ε Unit) (d : δ)
    (s : BaseCallHandler (CallContext δ V)) (name : String) (args : List V)
    (command : Option V) :
    (send { name := name, callId := getNextCallId s, command := command, args := args } =
        Except.ok Unit.unit →
      callRemoteWithResult send d s name args command =
        ((initiateCall s { deferred := d, name := name, args := args, command := command }).2,
         Except.ok d) ∧
      getCallContext (callRemoteWithResult send d s name args command).1 (getNextCallId s) =
        some { deferred := d, name := name, args := args, command := command }) ∧
    ∀ e : ε,
      send { name := name, callId := getNextCallId s, command := command, args := args } =
          Except.error e →
        (callRemoteWithResult send d s name args command).2 = Except.error e ∧
        getCallContext (callRemoteWithResult send d s name args command).1
          (getNextCallId s) = none ∧
        (callRemoteWithResult send d s name args command).1.lastCallId = s.lastCallId + 1 := by
  constructor
  · intro hok
    have h1 : callRemoteWithResult send d s name args command =
        ((initiateCall s { deferred := d, name := name, args := args, command := command }).2,
         Except.ok d) := by
      simp only [callRemoteWithResult, initiateCall, hok]
    refine ⟨h1, ?_⟩
    rw [h1]
    simp [getCallContext, initiateCall, lookupKey_insertKey_self]
  · intro e herr
    have h1 : callRemoteWithResult send d s name args command =
        ((discardCall
            (initiateCall s { deferred := d, name := name, args := args, command := command }).2
            (getNextCallId s)).2,
         Except.error e) := by
      simp only [callRemoteWithResult, initiateCall, herr]
    rw [h1]
    refine ⟨rfl, ?_, ?_⟩
    · simp [getCallContext, discardCall, initiateCall, lookupKey_eraseKey_self]
    · simp [discardCall, initiateCall, getNextCallId]

/-- C4 witness: with a sendMessage that always raises, the send error
propagates and no registry entry remains for the id that was assigned. -/
theorem callRemoteWithResult_spec_witness :
    ((fun _ : Invoke Nat => (Except.error "boom" : Except String Unit))
        { name := "m", callId := 1, command := none, args := [4] } =
      Except.error "boom") ∧
    (callRemoteWithResult (fun _ : Invoke Nat => (Except.error "boom" : Except String Unit))
        (0 : Nat) (initHandler : BaseCallHandler (CallContext Nat Nat)) "m" [4] none).2 =
      Except.error "boom" ∧
    getCallContext
      (callRemoteWithResult (fun _ : Invoke Nat => (Except.error "boom" : Except String Unit))
        (0 : Nat) (initHandler : BaseCallHandler (CallContext Nat Nat)) "m" [4] none).1 1 =
      none := by
  refine ⟨rfl, ?_, ?_⟩
  · exact ((callRemoteWithResult_spec
      (fun _ : Invoke Nat => (Except.error "boom" : Except String Unit)) (0 : Nat)
      (initHandler : BaseCallHandler (CallContext Nat Nat)) "m" [4] none).2 "boom" rfl).1
  · exact ((callRemoteWithResult_spec
      (fun _ : Invoke Nat => (Except.error "boom" : Except String Unit)) (0 : Nat)
      (initHandler : BaseCallHandler (CallContext Nat Nat)) "m" [4] none).2 "boom" rfl).2.1

/-- C6: finishCall and discardCall are extensionally equal: on every state
and callId they return the same popped context and the same new state;
both pop and return the stored context when the call is active, and return
none leaving the state unchanged when it is not. -/
theorem finishCall_eq_discardCall (α : Type) (s : BaseCallHandler α) (callId : Nat) :
    finishCall s callId = discardCall s callId ∧
    (∀ ctx : α, getCallContext s callId = some ctx →
      finishCall s callId =
        (some ctx, { s with activeCalls := eraseKey callId s.activeCalls })) ∧
    (getCallContext s callId = none → finishCall s callId = (none, s)) := by
  refine ⟨rfl, ?_, ?_⟩
  · intro ctx h
    simp only [finishCall]
    rw [show lookupKey s.activeCalls callId = some ctx from h]
  · intro h
    have hnone : lookupKey s.activeCalls callId = none := h
    simp only [finishCall, hnone, eraseKey_of_lookupKey_none hnone]

/-- C6 witness: on a handler with the single active call 2, finishCall and
discardCall agree; at id 2 both pop the context, at id 7 both return none
and leave the state unchanged. -/
theorem finishCall_eq_discardCall_witness :
    finishCall ({ lastCallId := 3, activeCalls := [(2, 10)] } : BaseCallHandler Nat) 2 =
      discardCall { lastCallId := 3, activeCalls := [(2, 10)] } 2 ∧
    finishCall ({ lastCallId := 3, activeCalls := [(2, 10)] } : BaseCallHandler Nat) 2 =
      (some 10, { lastCallId := 3, activeCalls := [] }) ∧
    finishCall ({ lastCallId := 3, activeCalls := [(2, 10)] } : BaseCallHandler Nat) 7 =
      (none, { lastCallId := 3, activeCalls := [(2, 10)] }) := by
  refine ⟨(finishCall_eq_discardCall Nat { lastCallId := 3, activeCalls := [(2, 10)] } 2).1,
    ?_, ?_⟩
  · have := (finishCall_eq_discardCall Nat
      { lastCallId := 3, activeCalls := [(2, 10)] } 2).2.1 10 rfl
    simpa [eraseKey] using this
  · exact (finishCall_eq_discardCall Nat
      { lastCallId := 3, activeCalls := [(2, 10)] } 7).2.2 rfl

/-- C7: callRemote passes exactly one invoke message, tagged with the
sentinel call id NO_RESULT = 0, to sendMessage; the handler state is
returned unchanged (no call registered, lastCallId not advanced) and None
is returned to the caller. -/
theorem callRemote_frame (δ α V : Type) (s : BaseCallHandler α) (name : String)
    (args : List V) (command : Option V) :
    callRemote δ s name args command =
      (s, [{ name := name, callId := 0, command := command, args := args }],
       (none : Option δ)) ∧
    NO_RESULT = 0 :=
  ⟨rfl, rfl⟩

/-- C10: in every state reachable from construction by any sequence of
initiateCall, finishCall and discardCall, the sentinel id 0 is never an
active call: isCallActive 0 is false, finishCall 0 returns none and leaves
the state unchanged, and handleRemoteResponse with callId 0 takes the
no-active-call branch, logging an unsolicited response. -/
theorem sentinel_zero_never_active (δ V : Type) (ops : List (Op (CallContext δ V)))
    (name : String) (result : V) (command : Option V) :
    isCallActive (runOps (initHandler : BaseCallHandler (CallContext δ V)) ops) 0 = false ∧
    finishCall (runOps (initHandler : BaseCallHandler (CallContext δ V)) ops) 0 =
      (none, runOps (initHandler : BaseCallHandler (CallContext δ V)) ops) ∧
    handleRemoteResponse (runOps (initHandler : BaseCallHandler (CallContext δ V)) ops)
        name 0 result command =
      (runOps (initHandler : BaseCallHandler (CallContext δ V)) ops,
       [RpcEffect.logUnsolicitedResponse name result]) := by
  have hnone := lookupKey_runOps_zero (α := CallContext δ V) ops
  have herase := eraseKey_of_lookupKey_none hnone
  refine ⟨?_, ?_, ?_⟩
  · simp [isCallActive, hnone]
  · simp only [finishCall, hnone, herase]
  · simp only [handleRemoteResponse, finishCall, hnone, herase, NO_RESULT, if_pos]

/-! Decoder timestamp accumulation. The module rtmpy.protocol.rtmp.codec is
not under src; only its tests (src/rtmpy/tests/rtmp/test_decoder.py) are.
The Decoder below is modelled from the spec and pinned where the tests
speak (DecoderTestCase.test_simple and test_incrementing_timestamp). -/

/-- Modelled from the spec: the meta carried with a demuxed message
(IChannelMeta fields used by Decoder.next): streamId, a delta timestamp,
and the datatype. -/
structure DecoderMeta (V : Type) where
  streamId : Nat
  timestamp : Nat
  datatype : V
  deriving Repr, DecidableEq

/-- Modelled from the spec: the per-stream state the Decoder drives. The
stream factory is idempotent per streamId and a fresh stream starts with
timestamp 0 (MockStream.timestamp = 0 in test_decoder.py line 82), so the
reachable stream state is a mapping streamId to running absolute
timestamp. -/
structure DecoderState where
  streams : List (Nat × Nat)
  deriving Repr, DecidableEq

/-- One dispatcher invocation: (stream, datatype, timestamp, data), the
stream identified by its streamId. -/
structure DispatchCall (D V : Type) where
  streamId : Nat
  datatype : V
  timestamp : Nat
  data : D
  deriving Repr, DecidableEq

/-- Modelled from the spec: Decoder.next (rtmpy.protocol.rtmp.codec, not
under src). It pulls one demux result; (None, None) is a no-op tick;
otherwise it resolves the stream, adds the delta timestamp of the message
to the stream's running absolute timestamp, and invokes the dispatcher
with the accumulated absolute timestamp. -/
def decoderNext {D V : Type} (s : DecoderState) (ev : Option (D × DecoderMeta V)) :
    DecoderState × Option (DispatchCall D V) :=
  match ev with
  | none => (s, none)
  | some (data, meta) =>
    let old := (lookupKey s.streams meta.streamId).getD 0
    let ts := old + meta.timestamp
    ({ streams := insertKey meta.streamId ts s.streams },
     some { streamId := meta.streamId, datatype := meta.datatype, timestamp := ts,
            data := data })

/-- C8: the Decoder accumulates wire timestamps as deltas into the
stream's running absolute clock: for a stream S it has not seen (so S
starts at timestamp 0), after a message with delta 2 and then a message
with delta 3 on S, S's absolute timestamp is 5, and the dispatcher was
invoked with the accumulated absolute timestamps 2 and then 5. -/
theorem decoder_accumulates_timestamps {D V : Type} (s : DecoderState) (S : Nat)
    (d1 d2 : D) (dt1 dt2 : V)
    (h : lookupKey s.streams S = none) :
    lookupKey (decoderNext
        (decoderNext s (some (d1, { streamId := S, timestamp := 2, datatype := dt1 }))).1
        (some (d2, { streamId := S, timestamp := 3, datatype := dt2 }))).1.streams S =
      some 5 ∧
    (decoderNext s (some (d1, { streamId := S, timestamp := 2, datatype := dt1 }))).2 =
      some { streamId := S, datatype := dt1, timestamp := 2, data := d1 } ∧
    (decoderNext
        (decoderNext s (some (d1, { streamId := S, timestamp := 2, datatype := dt1 }))).1
        (some (d2, { streamId := S, timestamp := 3, datatype := dt2 }))).2 =
      some { streamId := S, datatype := dt2, timestamp := 5, data := d2 } := by
  refine ⟨?_, ?_, ?_⟩
  · simp [decoderNext, h, lookupKey_insertKey_self]
  · simp [decoderNext, h]
  · simp [decoderNext, h, lookupKey_insertKey_self]

/-- C8 witness: starting from the empty decoder, stream 2 (as in
test_incrementing_timestamp) ends at absolute timestamp 5 after deltas 2
and 3, and the dispatcher sees 2 then 5. -/
theorem decoder_accumulates_timestamps_witness :
    lookupKey ({ streams := [] } : DecoderState).streams 2 = none ∧
    lookupKey (decoderNext
        (decoderNext ({ streams := [] } : DecoderState)
          (some ((0 : Nat), { streamId := 2, timestamp := 2, datatype := (0 : Nat) }))).1
        (some ((1 : Nat), { streamId := 2, timestamp := 3, datatype := (0 : Nat) }))).1.streams 2 =
      some 5 := by
  refine ⟨rfl, ?_⟩
  exact (decoder_accumulates_timestamps ({ streams := [] } : DecoderState) 2
    (0 : Nat) (1 : Nat) (0 : Nat) (0 : Nat) rfl).1

/-! Handshake tokens. The module rtmpy.rtmp.handshake is not under src;
only its tests (src/rtmpy/tests/rtmp/test_handshake.py) are. The token
types below are modelled from the spec, with every branch that the tests
exercise pinned to the behaviour those tests assert. -/

/-- handshake.HandshakeError, carrying its message. -/
structure HandshakeError where
  msg : String
  deriving Repr, DecidableEq

/-- Modelled from the spec: versions.H264_MIN_FLASH (rtmpy/versions.py is
not under src). The claims depend only on comparisons against this
threshold, never on its numeric value. -/
def H264_MIN_FLASH : Nat := 0x09007C02

/-- Modelled from the spec: versions.H264_MIN_FMS (rtmpy/versions.py is
not under src). The claims depend only on comparisons against this
threshold, never on its numeric value. -/
def H264_MIN_FMS : Nat := 0x03000124

/-- Modelled from the spec: handshake.ClientToken value object - uptime,
version and an optional 1536-byte payload (bytes as Nat). -/
structure ClientTok where
  uptime : Nat
  version : Nat
  payload : Option (List Nat)
  deriving Repr, DecidableEq

/-- Modelled from the spec: the digest offset inside a client payload -
the sum of the four bytes at positions 8-11, modulo a window of 728, plus
the base offset 12. Pinned by ClientTokenClassTestCase.test_getDigest
(offsets 4 and 10 select payload positions 16 and 22). -/
def clientDigestOffset (p : List Nat) : Nat :=
  12 + ((p.drop 8).take 4).sum % 728

/-- Modelled from the spec: handshake.ClientToken.getDigest. Raises
HandshakeError when the payload is absent (test_handshake.py lines
134-137); returns None below the digest-capable version; otherwise
extracts the 32 bytes the peer embedded at the computed offset. The
Python method memoizes the extracted value in an attribute named _digest
(the test deletes it at line 150 to recompute); the memo stores the same
extracted value, so it is left implicit here - the explicit cache that
claim C9 is about lives on the server token below. -/
def ClientTok.getDigest (c : ClientTok) : Except HandshakeError (Option (List Nat)) :=
  match c.payload with
  | none => Except.error { msg := "No digest available for an empty handshake" }
  | some p =>
    if c.version < H264_MIN_FLASH then Except.ok none
    else Except.ok (some ((p.drop (clientDigestOffset p)).take 32))

/-- Modelled from the spec: handshake.ServerToken - uptime, version,
optional payload, a reference to the client token it responds to, and the
lazily cached digest attribute _digest (absent until first computed). -/
structure ServerTok where
  uptime : Nat
  version : Nat
  payload : Option (List Nat)
  client : Option ClientTok
  digestCache : Option (List Nat)
  deriving Repr, DecidableEq

/-- Modelled from the spec: handshake.ServerToken.getDigest, parameterized
by the keyed digest primitive h standing for handshake._digest (its body,
an HMAC, is in the absent module). Order of checks pinned by the tests:
a cached value is returned first (test_repeat, lines 302-316, also after
the payload is mutated or cleared); an absent payload raises HandshakeError
(test_no_payload); an absent client returns None (test_version); a client
that is absent-payload raises via the client accessor, and a client below
the digest-capable version returns None (test_client_version); otherwise
the digest is computed once and stored in the cache. -/
def ServerTok.getDigest (h : List Nat → List Nat → List Nat) (t : ServerTok) :
    Except HandshakeError (Option (List Nat) × ServerTok) :=
  match t.digestCache with
  | some d => Except.ok (some d, t)
  | none =>
    match t.payload with
    | none => Except.error { msg := "No digest available for an empty handshake" }
    | some p =>
      match t.client with
      | none => Except.ok (none, t)
      | some c =>
        match ClientTok.getDigest c with
        | Except.error e => Except.error e
        | Except.ok none => Except.ok (none, t)
        | Except.ok (some cd) =>
          Except.ok (some (h cd p), { t with digestCache := some (h cd p) })

/-- Big-endian uint32 encoding, 4 bytes. -/
def be32 (n : Nat) : List Nat :=
  [n / 2 ^ 24 % 256, n / 2 ^ 16 % 256, n / 2 ^ 8 % 256, n % 256]

/-- Modelled from the spec: handshake.ServerToken.generatePayload.
Idempotent when a payload already exists. With no client token it fails
with the spec's message (branch not exercised by the tests, taken from the
spec's words); with a client token it consults the client digest, so an
unpopulated client raises HandshakeError with the message "No digest
available for an empty handshake" (pinned by
ServerTokenClassTestCase.test_generate_payload, lines 211-221); otherwise
the payload is the token's own 1536-byte block followed by a byte copy of
the client payload, with a digest block spliced into the own block when
the client is digest-capable. The pseudo-random filler is modelled as
zeros and the exact splice position is not pinned by src; no claim
depends on the successful payload's bytes. -/
def ServerTok.generatePayload (h : List Nat → List Nat → List Nat) (t : ServerTok) :
    Except HandshakeError ServerTok :=
  if t.payload.isSome then Except.ok t
  else
    match t.client with
    | none =>
      Except.error { msg := "client token is required before generating server token" }
    | some c =>
      match ClientTok.getDigest c with
      | Except.error e => Except.error e
      | Except.ok none =>
        let base := be32 t.uptime ++ be32 t.version ++ List.replicate 1528 0
        Except.ok { t with payload := some (base ++ c.payload.getD []) }
      | Except.ok (some _) =>
        let base := be32 t.uptime ++ be32 t.version ++ List.replicate 1496 0
        Except.ok
          { t with payload := some (base ++ h base (c.payload.getD []) ++ c.payload.getD []) }

/-- Modelled from the spec: the state of handshake.ServerNegotiator that
generateToken reads (test_handshake.py lines 500-626). -/
structure Negotiator where
  started : Bool
  client : Option ClientTok
  uptime : Option Nat
  version : Option Nat
  server : Option ServerTok
  deriving Repr, DecidableEq

/-- Modelled from the spec: handshake.ServerNegotiator.generateToken,
pinned by ServerNegotiatorTestCase.test_generateToken (lines 547-626):
before start it fails with the start message; started with no client token
it fails with the message "client token is required before generating
server token"; otherwise it builds a ServerToken for the stored client,
with uptime defaulting to 0, version defaulting to H264_MIN_FMS, and any
version below H264_MIN_FMS collapsed to 0. -/
def Negotiator.generateToken (n : Negotiator) : Except HandshakeError Negotiator :=
  if n.started = false then
    Except.error { msg := "`start` must be called before generating server token" }
  else
    match n.client with
    | none =>
      Except.error { msg := "client token is required before generating server token" }
    | some c =>
      let version : Nat :=
        match n.version with
        | none => H264_MIN_FMS
        | some v => if v < H264_MIN_FMS then 0 else v
      let tok : ServerTok :=
        { uptime := n.uptime.getD 0, version := version, payload := none,
          client := some c, digestCache := none }
      Except.ok { n with server := some tok }

/-- C5 counterexample: the claim says that ServerToken.generatePayload on
a server token whose client token is not populated raises HandshakeError
with the message "client token is required before generating server
token". On the token of ServerTokenClassTestCase.test_generate_payload
(fresh server token over a fresh, unpopulated client token) the raised
message is instead "No digest available for an empty handshake", exactly
as that test asserts at lines 220-221 of test_handshake.py. -/
theorem serverToken_generatePayload_message_counterexample :
    ServerTok.generatePayload (fun _ _ => List.replicate 32 0)
        { uptime := 0, version := 0, payload := none,
          client := some { uptime := 0, version := 0, payload := none },
          digestCache := none } =
      Except.error { msg := "No digest available for an empty handshake" } ∧
    ({ msg := "No digest available for an empty handshake" } : HandshakeError) ≠
      { msg := "client token is required before generating server token" } := by
  exact ⟨rfl, by decide⟩

/-- C5 (amended): calling ServerToken.generatePayload on a server token
with no payload whose client token is present but not populated raises
HandshakeError with the message "No digest available for an empty
handshake"; the message "client token is required before generating
server token" is raised by ServerNegotiator.generateToken when it is
called after start with no client token set. -/
theorem serverToken_generatePayload_empty_client
    (h : List Nat → List Nat → List Nat) (t : ServerTok) (c : ClientTok)
    (n : Negotiator)
    (hp : t.payload = none) (hc : t.client = some c) (hcp : c.payload = none)
    (hs : n.started = true) (hnc : n.client = none) :
    ServerTok.generatePayload h t =
      Except.error { msg := "No digest available for an empty handshake" } ∧
    Negotiator.generateToken n =
      Except.error { msg := "client token is required before generating server token" } := by
  constructor
  · simp [ServerTok.generatePayload, hp, hc, ClientTok.getDigest, hcp]
  · simp [Negotiator.generateToken, hs, hnc]

/-- C5 witness: the concrete tokens of test_generate_payload and the
concrete negotiator of test_generateToken. -/
theorem serverToken_generatePayload_empty_client_witness :
    ({ uptime := 0, version := 0, payload := none,
       client := some { uptime := 0, version := 0, payload := none },
       digestCache := none } : ServerTok).payload = none ∧
    ServerTok.generatePayload (fun _ p => p)
        { uptime := 0, version := 0, payload := none,
          client := some { uptime := 0, version := 0, payload := none },
          digestCache := none } =
      Except.error { msg := "No digest available for an empty handshake" } ∧
    Negotiator.generateToken
        { started := true, client := none, uptime := none, version := none,
          server := none } =
      Except.error { msg := "client token is required before generating server token" } := by
  refine ⟨rfl, ?_, ?_⟩
  · exact (serverToken_generatePayload_empty_client (fun _ p => p)
      { uptime := 0, version := 0, payload := none,
        client := some { uptime := 0, version := 0, payload := none },
        digestCache := none }
      { uptime := 0, version := 0, payload := none }
      { started := true, client := none, uptime := none, version := none, server := none }
      rfl rfl rfl rfl rfl).1
  · exact (serverToken_generatePayload_empty_client (fun _ p => p)
      { uptime := 0, version := 0, payload := none,
        client := some { uptime := 0, version := 0, payload := none },
        digestCache := none }
      { uptime := 0, version := 0, payload := none }
      { started := true, client := none, uptime := none, version := none, server := none }
      rfl rfl rfl rfl rfl).2

/-- C9: ServerToken.getDigest computes its digest at most once and caches
it. Once the cache holds d, every call returns d and leaves the token
unchanged - for any digest primitive h, so nothing is recomputed - even
after the payload is mutated or cleared to None. On a cache-less token, a
call that returns a digest stores exactly that 32-byte value in the
cache. With no cache, a present payload and an absent or
non-digest-capable client token, getDigest returns None. -/
theorem serverToken_getDigest_cached
    (h : List Nat → List Nat → List Nat)
    (hlen : ∀ key msg, (h key msg).length = 32) :
    (∀ (t : ServerTok) (d : List Nat), t.digestCache = some d →
      ServerTok.getDigest h t = Except.ok (some d, t) ∧
      (∀ p, ServerTok.getDigest h { t with payload := some p } =
        Except.ok (some d, { t with payload := some p })) ∧
      ServerTok.getDigest h { t with payload := none } =
        Except.ok (some d, { t with payload := none })) ∧
    (∀ (t t2 : ServerTok) (r : Option (List Nat)), t.digestCache = none →
      ServerTok.getDigest h t = Except.ok (r, t2) →
      ∀ d, r = some d → t2.digestCache = some d ∧ d.length = 32) ∧
    (∀ (t : ServerTok) (p : List Nat), t.digestCache = none → t.payload = some p →
      (t.client = none → ServerTok.getDigest h t = Except.ok (none, t)) ∧
      (∀ (c : ClientTok) (q : List Nat), t.client = some c → c.payload = some q →
        c.version < H264_MIN_FLASH →
        ServerTok.getDigest h t = Except.ok (none, t))) := by
  refine ⟨?_, ?_, ?_⟩
  · intro t d hcache
    refine ⟨?_, ?_, ?_⟩
    · simp [ServerTok.getDigest, hcache]
    · intro p
      simp [ServerTok.getDigest, hcache]
    · simp [ServerTok.getDigest, hcache]
  · intro t t2 r hcache hrun d hr
    subst hr
    obtain ⟨u, v, pl, cl, dc⟩ := t
    cases dc with
    | some d0 => simp at hcache
    | none =>
      cases pl with
      | none => simp [ServerTok.getDigest] at hrun
      | some p =>
        cases cl with
        | none => simp [ServerTok.getDigest] at hrun
        | some c =>
          cases hcd : ClientTok.getDigest c with
          | error e => simp [ServerTok.getDigest, hcd] at hrun
          | ok o =>
            cases o with
            | none => simp [ServerTok.getDigest, hcd] at hrun
            | some cd =>
              simp only [ServerTok.getDigest, hcd, Except.ok.injEq, Prod.mk.injEq,
                Option.some.injEq] at hrun
              refine ⟨?_, ?_⟩
              · rw [← hrun.2]
                simp [hrun.1]
              · rw [← hrun.1]
                exact hlen cd p
  · intro t p hcache hp
    constructor
    · intro hc
      simp [ServerTok.getDigest, hcache, hp, hc]
    · intro c q hc hcq hver
      simp [ServerTok.getDigest, hcache, hp, hc, ClientTok.getDigest, hcq, hver]

/-- C9 witness: a token with a cached digest keeps returning it after its
payload is cleared; a cache-less computation stores a 32-byte cache; a
token with a payload but no client returns None. All with the constant
digest primitive returning 32 zero bytes. -/
theorem serverToken_getDigest_cached_witness :
    (∀ key msg : List Nat,
      ((fun (_ : List Nat) (_ : List Nat) => List.replicate 32 (0 : Nat)) key msg).length =
        32) ∧
    ServerTok.getDigest (fun _ _ => List.replicate 32 0)
        { uptime := 0, version := 0, payload := none, client := none,
          digestCache := some [7] } =
      Except.ok (some [7],
        { uptime := 0, version := 0, payload := none, client := none,
          digestCache := some [7] }) ∧
    ServerTok.getDigest (fun _ _ => List.replicate 32 0)
        { uptime := 0, version := 0, payload := some [1], client := none,
          digestCache := none } =
      Except.ok (none,
        { uptime := 0, version := 0, payload := some [1], client := none,
          digestCache := none }) := by
  refine ⟨?_, ?_, ?_⟩
  · intro key msg
    rfl
  · have := ((serverToken_getDigest_cached (fun _ _ => List.replicate 32 0)
      (fun _ _ => rfl)).1
      { uptime := 0, version := 0, payload := some [2], client := none,
        digestCache := some [7] } [7] rfl).2.2
    simpa using this
  · exact (((serverToken_getDigest_cached (fun _ _ => List.replicate 32 0)
      (fun _ _ => rfl)).2.2
      { uptime := 0, version := 0, payload := some [1], client := none,
        digestCache := none } [1] rfl rfl).1 rfl)

end Rtmpy
